import Mathlib

/-!
# Verification of the sepa.js SEPA document builder

A shallow embedding of the sepa.js library (SEPA XML payment initiation
documents) together with proofs about its checksum engine, validation
engine, entity model, normalization pass and XML rendering engine.

JavaScript strings are embedded as Lean `String` values, JS numbers as
rationals (`ℚ`), JS `Date` values as an explicit three-state type, the
nullable string fields of the entity classes as `Option String`, and
thrown exceptions as `Except` results.  The two process-wide mutable
configuration values of the library (the id separator and the
validation-enabled flag) are threaded through as explicit parameters.
-/

/-! ## JS string primitives used by the library -/

/-- JS `s.substr(start, len)` for non-negative arguments. -/
def jsSubstr (s : String) (start len : Nat) : String :=
  ⟨(s.data.drop start).take len⟩

/-- JS `s.substr(start)` for a non-negative argument: the suffix from `start`. -/
def jsSubstrFrom (s : String) (start : Nat) : String :=
  ⟨s.data.drop start⟩

/-- JS `s.substr(-2, 2)`: the last two characters (the whole string when
shorter).  The truncated `Nat` subtraction realises the clamping of the
negative start index to `0`. -/
def jsSubstrNeg2 (s : String) : String :=
  ⟨(s.data.drop (s.data.length - 2)).take 2⟩

/-- Truthiness of a JS string: every string except `''` is truthy. -/
def jsTruthyS (s : String) : Bool :=
  s ≠ ""

/-- Truthiness of a nullable JS string (`none` embeds JS `null`). -/
def jsTruthyO (s : Option String) : Bool :=
  match s with
  | none => false
  | some t => t ≠ ""

/-- JS `String.prototype.trim` restricted to the ASCII range: strip leading
and trailing whitespace (space and the C0 control characters), implemented
structurally so that it evaluates definitionally. -/
def jsTrim (s : String) : String :=
  ⟨((s.data.dropWhile (fun c => c.toNat ≤ 32)).reverse.dropWhile
      (fun c => c.toNat ≤ 32)).reverse⟩

/-- `c` is an ASCII decimal digit (char code 48–57). -/
def isDigitCharB (c : Char) : Bool :=
  decide (48 ≤ c.toNat ∧ c.toNat ≤ 57)

/-- JS `parseInt(c, 10)` on a single character: its digit value, or `none`
for the JS result `NaN`. -/
def parseDigit (c : Char) : Option Nat :=
  if 48 ≤ c.toNat ∧ c.toNat ≤ 57 then some (c.toNat - 48) else none

/-- Decimal value of a digit character. -/
def digitVal (c : Char) : Nat :=
  c.toNat - 48

/-- The number denoted by a list of decimal digit characters,
most significant first (the value `parseInt` would accumulate). -/
def natOfDigits (l : List Char) : Nat :=
  l.foldl (fun a c => a * 10 + digitVal c) 0

/-- JS number-to-string coercion for the non-negative integers produced by
this code base (decimal notation, no sign, no exponent). -/
def natToString (n : Nat) : String :=
  Nat.repr n

/-- JS `parseInt(s, 10)`: optional leading spaces and sign, then the maximal
leading run of decimal digits; `none` embeds the JS result `NaN`. -/
def jsParseInt (s : String) : Option Int :=
  let t := s.data.dropWhile (fun c => c = ' ')
  match t with
  | '-' :: rest =>
      let ds := rest.takeWhile isDigitCharB
      if ds.isEmpty then none else some (-(natOfDigits ds : Int))
  | '+' :: rest =>
      let ds := rest.takeWhile isDigitCharB
      if ds.isEmpty then none else some (natOfDigits ds : Int)
  | _ =>
      let ds := t.takeWhile isDigitCharB
      if ds.isEmpty then none else some (natOfDigits ds : Int)

/-- JS `s.indexOf(pre) === 0`, i.e. `s` starts with `pre`. -/
def strStartsWith (s pre : String) : Bool :=
  decide (s.data.take pre.data.length = pre.data)

/-! ## Checksum engine (`_replaceChars`, `_txtMod97`, IBAN / creditor id) -/

/-- The replacement the `_replaceChars` loop body appends for one character:
uppercase letters become the decimal digits of `code - 55` (A=10 … Z=35),
lowercase letters the digits of `code - 87` (a=10 … z=35), digits pass
through unchanged, every other character is dropped. -/
def replaceChar (c : Char) : List Char :=
  if 65 ≤ c.toNat ∧ c.toNat ≤ 90 then Nat.toDigits 10 (c.toNat - 55)
  else if 97 ≤ c.toNat ∧ c.toNat ≤ 122 then Nat.toDigits 10 (c.toNat - 87)
  else if 48 ≤ c.toNat ∧ c.toNat ≤ 57 then [c]
  else []

/-- List-level core of `_replaceChars`: concatenation of the per-character
replacements, in input order. -/
def replaceCharsL : List Char → List Char
  | [] => []
  | c :: cs => replaceChar c ++ replaceCharsL cs

/-- `_replaceChars(str)` from the source: replace letters with numbers using
the SEPA scheme A=10, B=11, …; non-alphanumerical characters are dropped. -/
def _replaceChars (str : String) : String :=
  ⟨replaceCharsL str.data⟩

/-- The `_txtMod97` accumulator loop.  `none` embeds the JS value `NaN`:
once a character fails `parseInt` the accumulator is `NaN` and stays so. -/
def txtMod97Go : Option Nat → List Char → Option Nat
  | res, [] => res
  | res, c :: cs =>
      txtMod97Go
        (match res, parseDigit c with
         | some r, some d => some ((r * 10 + d) % 97)
         | _, _ => none) cs

/-- `_txtMod97(str)` from the source: the decimal number denoted by `str`
modulo 97, computed digit by digit; `none` embeds the JS result `NaN`
(which arises only on non-digit input, never on `_replaceChars` output). -/
def _txtMod97 (str : String) : Option Nat :=
  txtMod97Go (some 0) str.data

/-- `validateIBAN(iban)` from the source: rotate the first 4 characters to
the end, replace letters, and test that the remainder modulo 97 is 1. -/
def validateIBAN (iban : String) : Bool :=
  let ibrev := jsSubstrFrom iban 4 ++ jsSubstr iban 0 4
  _txtMod97 (_replaceChars ibrev) == some 1

/-- `checksumIBAN(iban)` from the source: rotate, with `00` in place of the
check digits, compute `98 - mod97`, left-pad to two characters with a `0`
and take the last two, and splice the result into positions 3–4.
The `getD 0` default is never taken: `_replaceChars` output consists of
decimal digits only (`replaceCharsL_all_digits`), so `_txtMod97` never
returns `none` on it (`txtMod97_replaceChars_isSome`). -/
def checksumIBAN (iban : String) : String :=
  let ibrev := jsSubstrFrom iban 4 ++ jsSubstr iban 0 2 ++ "00"
  let md := (_txtMod97 (_replaceChars ibrev)).getD 0
  jsSubstr iban 0 2 ++ jsSubstrNeg2 ("0" ++ natToString (98 - md)) ++ jsSubstrFrom iban 4

/-- `validateCreditorID(cid)` from the source: as `validateIBAN` but
rotating the first 4 characters past a 7-character prefix. -/
def validateCreditorID (cid : String) : Bool :=
  let cidrev := jsSubstrFrom cid 7 ++ jsSubstr cid 0 4
  _txtMod97 (_replaceChars cidrev) == some 1

/-- `checksumCreditorID(cid)` from the source: rotation past the
7-character prefix with trailing `00`, then the same `98 - mod97` splice
into positions 3–4 (the business-code characters 5–7 are skipped by the
rotation but kept by the splice). -/
def checksumCreditorID (cid : String) : String :=
  let cidrev := jsSubstrFrom cid 7 ++ jsSubstr cid 0 2 ++ "00"
  let md := (_txtMod97 (_replaceChars cidrev)).getD 0
  jsSubstr cid 0 2 ++ jsSubstrNeg2 ("0" ++ natToString (98 - md)) ++ jsSubstrFrom cid 4

/-- ASCII uppercasing of one character, `a`–`z` to `A`–`Z`.  Models JS
`String.prototype.toUpperCase` on the ASCII range, which is the claim's
uppercasing operation (special non-ASCII case mappings are out of scope:
every IBAN character class is ASCII). -/
def toUpperAscii (c : Char) : Char :=
  if 97 ≤ c.toNat ∧ c.toNat ≤ 122 then Char.ofNat (c.toNat - 32) else c

/-- ASCII uppercasing of a string, character by character. -/
def jsToUpperStr (s : String) : String :=
  ⟨s.data.map toUpperAscii⟩

/-! ## Errors, JS dates and JS dynamic values -/

/-- The two kinds of exception the library throws: plain `Error(msg)` and
the structured `InvalidSupplierError(supplierName, invalidParams, msg)`. -/
inductive SepaError where
  | plain (msg : String)
  | invalidSupplier (supplierName : String) (invalidParams : List String) (msg : String)
deriving DecidableEq

/-- A JS `Date`-typed field: `null`/`undefined`, the invalid-date sentinel
(`getTime()` is `NaN`), or a real date carried as its ISO string. -/
inductive JsDate where
  | nullv
  | invalid
  | validDate (iso : String)
deriving DecidableEq

/-- JS `date.toISOString()`: the ISO string of a real date; a `RangeError`
on the invalid-date sentinel; a `TypeError` when the receiver is
`null`/`undefined`. -/
def jsToISOString : JsDate → Except SepaError String
  | .nullv => .error (.plain "TypeError: toISOString called on null")
  | .invalid => .error (.plain "RangeError: Invalid time value")
  | .validDate iso => .ok iso

/-- A dynamically typed JS value as passed to `assert_length` (which
receives strings, `null`, and — through the `_payments.length` call site —
numbers). -/
inductive JsVal where
  | vstr (s : String)
  | vnum (q : ℚ)
  | vnull
deriving DecidableEq

/-- JS truthiness of a `JsVal`. -/
def jsValTruthy : JsVal → Bool
  | .vstr s => s ≠ ""
  | .vnum q => q ≠ 0
  | .vnull => false

/-- JS `.length` of a `JsVal`: defined on strings, `undefined` (embedded as
`none`) on numbers and `null`. -/
def jsValLength : JsVal → Option Nat
  | .vstr s => some s.length
  | _ => none

/-- Left-pad a digit string with zeros to `k` characters. -/
def padZeros (k : Nat) (s : String) : String :=
  ⟨List.replicate (k - s.data.length) '0' ++ s.data⟩

/-- JS number-to-string for the rational values this embedding uses:
decimal notation with the shortest terminating expansion (searched up to 20
fractional digits).  Matches JS output on the short decimal values this
code base handles; it is used only inside error-message strings and the
`parseInt(amount.toString())` integrality test. -/
def ratToString (q : ℚ) : String :=
  let sign := if q < 0 then "-" else ""
  let k := ((List.range 21).find? (fun j => (10 ^ j) % q.den == 0)).getD 20
  let scaled := q.num.natAbs * 10 ^ k / q.den
  if k = 0 then sign ++ natToString scaled
  else sign ++ natToString (scaled / 10 ^ k) ++ "." ++
    padZeros k (natToString (scaled % 10 ^ k))

/-- JS `num.toFixed(2)` for the exact decimal amounts this code base
renders: round half away from zero to two fractional digits (computed on
the numerator and denominator, so that it evaluates definitionally) (the rounding
of inexact binary floats is not modelled; every amount rendered in the
claims is exact). -/
def qToFixed2 (q : ℚ) : String :=
  let sign := if q < 0 then "-" else ""
  let n := (q.num.natAbs * 100 * 2 + q.den) / (2 * q.den)
  sign ++ natToString (n / 100) ++ "." ++
    (if n % 100 < 10 then "0" ++ natToString (n % 100) else natToString (n % 100))

/-- JS `true.toString()` / `false.toString()`. -/
def boolToString (b : Bool) : String :=
  if b then "true" else "false"

/-! ## Entity model -/

/-- The `SEPATypes` table: pain format → root business element name. -/
def SEPATypes : List (String × String) := [
  ("pain.001.001.02", "pain.001.001.02"),
  ("pain.001.003.02", "pain.001.003.02"),
  ("pain.001.001.03", "CstmrCdtTrfInitn"),
  ("pain.001.003.03", "CstmrCdtTrfInitn"),
  ("pain.008.001.01", "pain.008.001.01"),
  ("pain.008.003.01", "pain.008.003.01"),
  ("pain.008.001.02", "CstmrDrctDbtInitn"),
  ("pain.008.003.02", "CstmrDrctDbtInitn")]

def DEFAULT_PAIN_FORMAT : String := "pain.008.001.02"

/-- `getPainXMLVersion(painFormat)` from the source:
`parseInt(painFormat.substr(-2), 10)`, incremented by 1 for the
`pain.008` (direct debit) family; `none` embeds the JS result `NaN`. -/
def getPainXMLVersion (painFormat : String) : Option Int :=
  let inc : Int := if strStartsWith painFormat "pain.008" then 1 else 0
  (jsParseInt (jsSubstrNeg2 painFormat)).map (fun v => v + inc)

/-- `setIDSeparator(separator)` from the source: the new value of the
module-global `ID_SEPARATOR` (default `"."`), which this embedding threads
as an explicit argument into the attach operations. -/
def setIDSeparator (separator : String) : String :=
  separator

/-- `enableValidations(enabled)` from the source: the new value of the
module-global `VALIDATIONS_ENABLED` flag (`!!enabled`), which this
embedding threads as an explicit argument into the render operations. -/
def enableValidations (enabled : Bool) : Bool :=
  enabled

def PaymentInfoTypes.DirectDebit : String := "DD"

def PaymentInfoTypes.Transfer : String := "TRF"

def TransactionTypes.DirectDebit : String := "DrctDbtTxInf"

def TransactionTypes.Transfer : String := "CdtTrfTxInf"

/-- The `SepaGroupHeader` class: one per document.  Field defaults mirror
the class-field initializers; `created` is declared but not initialized in
the source, hence defaults to `null`. -/
structure SepaGroupHeader where
  _painFormat : String
  id : String := ""
  created : JsDate := .nullv
  transactionCount : Nat := 0
  initiatorName : String := ""
  cifNumber : String := ""
  cucNumber : String := ""
  controlSum : ℚ := 0
  batchBooking : Bool := false
  grouping : String := "MIXD"
deriving DecidableEq

/-- The `SepaGroupHeader` constructor. -/
def mkGroupHeader (painFormat : String) : SepaGroupHeader :=
  { _painFormat := painFormat }

/-- The `SepaTransaction` class.  Nullable string fields are `Option
String`; `overrideReference` is declared without initializer (JS
`undefined`, falsy), embedded as the equally falsy `""`. -/
structure SepaTransaction where
  _painFormat : String
  _type : String
  id : String := ""
  end2endId : String := ""
  currency : String := "EUR"
  amount : ℚ := 0
  ammendment : String := ""
  purposeCode : Option String := none
  mandateId : String := ""
  mandateSignatureDate : JsDate := .nullv
  debtorName : String := ""
  debtorStreet : Option String := none
  debtorCity : Option String := none
  debtorCountry : Option String := none
  debtorIBAN : String := ""
  debtorBIC : String := ""
  remittanceInfo : String := ""
  creditorName : String := ""
  creditorStreet : Option String := none
  creditorCity : Option String := none
  creditorCountry : Option String := none
  creditorIBAN : String := ""
  creditorBIC : String := ""
  overrideReference : String := ""
deriving DecidableEq

/-- The `SepaTransaction` constructor: the node type follows the format
family (`pain.001` → credit transfer, otherwise direct debit). -/
def mkTransaction (painFormat : String) : SepaTransaction :=
  { _painFormat := painFormat,
    _type := if strStartsWith painFormat "pain.001" then TransactionTypes.Transfer
             else TransactionTypes.DirectDebit }

/-- The `SepaPaymentInfo` class. -/
structure SepaPaymentInfo where
  _painFormat : String
  method : String
  _payments : List SepaTransaction := []
  id : String := ""
  batchBooking : Bool := false
  grouping : String := "MIXD"
  controlSum : ℚ := 0
  localInstrumentation : String := "CORE"
  sequenceType : String := "FRST"
  collectionDate : JsDate := .nullv
  requestedExecutionDate : JsDate := .nullv
  creditorId : String := ""
  creditorName : String := ""
  creditorStreet : Option String := none
  creditorCity : Option String := none
  creditorCountry : Option String := none
  creditorIBAN : String := ""
  creditorBIC : String := ""
  creditorMemberId : String := ""
  debtorId : String := ""
  debtorName : String := ""
  debtorStreet : Option String := none
  debtorCity : Option String := none
  debtorCountry : Option String := none
  debtorIBAN : String := ""
  debtorBIC : String := ""
  debtorMemberId : String := ""
  instructionPriority : String := "NORM"
  categoryPurpose : String := ""
  overrideReference : String := ""
deriving DecidableEq

/-- The `SepaPaymentInfo` constructor: the payment method follows the
format family (`pain.001` → Transfer, otherwise DirectDebit). -/
def mkPaymentInfo (painFormat : String) : SepaPaymentInfo :=
  { _painFormat := painFormat,
    method := if strStartsWith painFormat "pain.001" then PaymentInfoTypes.Transfer
              else PaymentInfoTypes.DirectDebit }

/-- The `transactionCount` getter of `SepaPaymentInfo`. -/
def SepaPaymentInfo.transactionCount (p : SepaPaymentInfo) : Nat :=
  p._payments.length

/-- The `SepaDocument` class.  `_type` is the `SEPATypes` table lookup,
`undefined` (`none`) for unknown formats. -/
structure SepaDocument where
  _painFormat : String
  _type : Option String
  _paymentInfo : List SepaPaymentInfo := []
  _xmlVersion : String := "1.0"
  _xmlEncoding : String := "UTF-8"
  grpHdr : SepaGroupHeader
deriving DecidableEq

/-- The `SepaDocument` constructor: `painFormat || DEFAULT_PAIN_FORMAT`
(so `null`/`undefined`/`''` all select the default). -/
def mkDocument (painFormat : Option String) : SepaDocument :=
  let f := match painFormat with
    | some s => if s ≠ "" then s else DEFAULT_PAIN_FORMAT
    | none => DEFAULT_PAIN_FORMAT
  { _painFormat := f, _type := SEPATypes.lookup f, grpHdr := mkGroupHeader f }

/-- `SepaDocument.addPaymentInfo` from the source: id assignment (override
reference verbatim / caller-supplied id prefixed / positional index
prefixed) happens here, then the block is appended.  The module-global
`ID_SEPARATOR` is the explicit `sep` argument; the dynamic `instanceof`
guard is enforced by the type of `p`. -/
def SepaDocument.addPaymentInfo (d : SepaDocument) (sep : String)
    (p : SepaPaymentInfo) : SepaDocument :=
  let p2 :=
    if jsTruthyS p.overrideReference then { p with id := p.overrideReference }
    else if jsTruthyS p.id then { p with id := d.grpHdr.id ++ sep ++ p.id }
    else { p with id := d.grpHdr.id ++ sep ++ natToString d._paymentInfo.length }
  { d with _paymentInfo := d._paymentInfo ++ [p2] }

/-- `SepaPaymentInfo.addTransaction` from the source: same id assignment as
`addPaymentInfo`, prefixing with the payment info block's id. -/
def SepaPaymentInfo.addTransaction (p : SepaPaymentInfo) (sep : String)
    (pmt : SepaTransaction) : SepaPaymentInfo :=
  let pmt2 :=
    if jsTruthyS pmt.overrideReference then { pmt with id := pmt.overrideReference }
    else if jsTruthyS pmt.id then { pmt with id := p.id ++ sep ++ pmt.id }
    else { pmt with id := p.id ++ sep ++ natToString p._payments.length }
  { p with _payments := p._payments ++ [pmt2] }

/-- `SepaPaymentInfo.normalize` from the source: the control sum is the sum
of the transaction amounts, accumulated in list order. -/
def SepaPaymentInfo.normalize (p : SepaPaymentInfo) : SepaPaymentInfo :=
  { p with controlSum := p._payments.foldl (fun a t => a + t.amount) 0 }

/-- `SepaDocument.normalize` from the source: normalize every payment info
block, then accumulate their (normalized) control sums and transaction
counts into the group header. -/
def SepaDocument.normalize (d : SepaDocument) : SepaDocument :=
  let pis := d._paymentInfo.map SepaPaymentInfo.normalize
  { d with
    _paymentInfo := pis,
    grpHdr := { d.grpHdr with
      controlSum := pis.foldl (fun a p => a + p.controlSum) 0,
      transactionCount := pis.foldl (fun a p => a + p.transactionCount) 0 } }


/-! ## Validation engine -/

/-- `assert(cond, msg)` from the source. -/
def assert (cond : Bool) (msg : String) : Except SepaError Unit :=
  if cond then .ok () else .error (.plain msg)

/-- `assert_fixed(val, choices, member)` from the source
(`choices.indexOf(val) < 0` is the failure condition). -/
def assert_fixed {α : Type} [DecidableEq α] [ToString α] (val : α) (choices : List α)
    (member : String) : Except SepaError Unit :=
  if choices.contains val then .ok ()
  else .error (.plain (member ++ " must have any value of: " ++
    " ".intercalate (choices.map toString) ++ "(found: " ++ toString val ++ ")"))

/-- String coercion of a `JsVal` for message building. -/
def jsValToString : JsVal → String
  | .vstr s => s
  | .vnum q => ratToString q
  | .vnull => "null"

/-- String coercion of an optional bound for message building. -/
def optNatToString : Option Nat → String
  | none => "null"
  | some n => natToString n

/-- `assert_length(str, min, max, member)` from the source.  The first
argument is dynamically typed (the call sites pass strings, `null`, and —
for `_payments.length` — numbers); a falsy value (including the number 0
and the empty string) short-circuits each disjunct, and `.length` of a
number is `undefined`, whose comparisons are false. -/
def assert_length (v : JsVal) (min max : Option Nat) (member : String) :
    Except SepaError Unit :=
  let lenLtMin := match min, jsValLength v with
    | some m, some l => decide (l < m)
    | _, _ => false
  let lenGtMax := match max, jsValLength v with
    | some m, some l => decide (l > m)
    | _, _ => false
  if (min.isSome && jsValTruthy v && lenLtMin) ||
      (max.isSome && jsValTruthy v && lenGtMax) then
    .error (.plain (member ++ " has invalid string length, expected " ++
      optNatToString min ++ " < " ++ jsValToString v ++ " < " ++ optNatToString max))
  else .ok ()

/-- `assert_range(num, min, max, member)` from the source. -/
def assert_range (num min max : ℚ) (member : String) : Except SepaError Unit :=
  if num < min ∨ num > max then
    .error (.plain (member ++ " does not match range " ++ ratToString min ++ " < " ++
      ratToString num ++ " < " ++ ratToString max))
  else .ok ()

/-- `assert_iban(str, member)` from the source. -/
def assert_iban (str member : String) : Except SepaError Unit :=
  if validateIBAN str then .ok ()
  else .error (.plain (member ++ " has invalid IBAN \"" ++ str ++ "\""))

/-- `assert_name(str, member)` from the source: fails when the string is
empty or trims to whitespace only. -/
def assert_name (str member : String) : Except SepaError Unit :=
  if str = "" ∨ jsTrim str = "" then
    .error (.plain (member ++ " has invalid name: \"" ++ str ++ "\""))
  else .ok ()

/-- `assert_cid(str, member)` from the source. -/
def assert_cid (str member : String) : Except SepaError Unit :=
  if validateCreditorID str then .ok ()
  else .error (.plain (member ++ " is invalid \"" ++ str ++ "\""))

/-- String coercion of a `JsDate` for message building. -/
def jsDateToString : JsDate → String
  | .nullv => "null"
  | .invalid => "Invalid Date"
  | .validDate iso => iso

/-- `assert_date(dt, member)` from the source: fails on `null`/`undefined`
and on the invalid-date sentinel (`isNaN(dt.getTime())`). -/
def assert_date (dt : JsDate) (member : String) : Except SepaError Unit :=
  match dt with
  | .validDate _ => .ok ()
  | d => .error (.plain (member ++ " has invalid date " ++ jsDateToString d))

/-- Membership in the first SEPA id character class of the source regex
`([A-Za-z0-9]|[+|?|/|\-|:|(|)|.|,|'| ])`: letters, digits, and the literal
characters plus, pipe, question mark, slash, hyphen, colon, parentheses,
dot, comma, apostrophe (char 39) and space (the `|` characters inside the
bracket expression are themselves members). -/
def sepaIdSet1Char (c : Char) : Bool :=
  decide ((65 ≤ c.toNat ∧ c.toNat ≤ 90) ∨ (97 ≤ c.toNat ∧ c.toNat ≤ 122) ∨
    (48 ≤ c.toNat ∧ c.toNat ≤ 57) ∨
    c ∈ ['+', '|', '?', '/', '-', ':', '(', ')', '.', ',', Char.ofNat 39, ' '])

/-- Membership in the second SEPA id character class (as the first, but
without the space). -/
def sepaIdSet2Char (c : Char) : Bool :=
  decide ((65 ≤ c.toNat ∧ c.toNat ≤ 90) ∨ (97 ≤ c.toNat ∧ c.toNat ≤ 122) ∨
    (48 ≤ c.toNat ∧ c.toNat ≤ 57) ∨
    c ∈ ['+', '|', '?', '/', '-', ':', '(', ')', '.', ',', Char.ofNat 39])

/-- The error text of `assert_sepa_id_set1` (the apostrophe is char 39). -/
def charsetMsg1 (member str : String) : String :=
  member ++ " doesn" ++ (Char.ofNat 39).toString ++
    "t match sepa id charset type 1 (found: " ++ "\"" ++ str ++ "\")"

/-- The error text of `assert_sepa_id_set2`. -/
def charsetMsg2 (member str : String) : String :=
  member ++ " doesn" ++ (Char.ofNat 39).toString ++
    "t match sepa id charset type 2 (found: " ++ "\"" ++ str ++ "\")"

/-- `assert_sepa_id_set1(str, member)` from the source.  The JS test is
`str && !str.match(<set1 regex>{1,35})`; the regex is unanchored, so
`match` succeeds exactly when the string contains at least one character of
the class, and the error fires only for a non-empty string with no class
character at all. -/
def assert_sepa_id_set1 (str member : String) : Except SepaError Unit :=
  if jsTruthyS str && !str.data.any sepaIdSet1Char then
    .error (.plain (charsetMsg1 member str))
  else .ok ()

/-- `assert_sepa_id_set2(str, member)` from the source; same unanchored
`match` as `assert_sepa_id_set1`, over the second character class. -/
def assert_sepa_id_set2 (str member : String) : Except SepaError Unit :=
  if jsTruthyS str && !str.data.any sepaIdSet2Char then
    .error (.plain (charsetMsg2 member str))
  else .ok ()

/-- The destructured parameter record of `assert_debitor`. -/
structure DebitorArgs where
  name : String
  street : Option String
  city : Option String
  country : Option String
  iban : String
  bic : String
  pullFrom : String
deriving DecidableEq

/-- `name && name.length > 70`. -/
def nameLongB (a : DebitorArgs) : Bool :=
  jsTruthyS a.name && decide (a.name.length > 70)

/-- `street && street.length > 70`. -/
def streetLongB (a : DebitorArgs) : Bool :=
  jsTruthyO a.street && decide ((a.street.getD "").length > 70)

/-- `city && city.length > 70`. -/
def cityLongB (a : DebitorArgs) : Bool :=
  jsTruthyO a.city && decide ((a.city.getD "").length > 70)

/-- `country && country.length > 2`. -/
def countryLongB (a : DebitorArgs) : Bool :=
  jsTruthyO a.country && decide ((a.country.getD "").length > 2)

/-- `assert_name(name, pullFrom)` throws. -/
def nameInvalidB (a : DebitorArgs) : Bool :=
  decide (a.name = "" ∨ jsTrim a.name = "")

/-- The `try` block around `assert_iban` / `assert_fixed(bic.length)` /
`assert(countryMatches)` throws: invalid IBAN, or a BIC length outside
{0, 8, 11}, or a non-empty BIC whose characters 5–6 differ from the IBAN's
first two characters. -/
def ibanBicFailB (a : DebitorArgs) : Bool :=
  !validateIBAN a.iban || !([0, 8, 11].contains a.bic.length) ||
    !(a.bic.length == 0 || jsSubstr a.bic 4 2 == jsSubstr a.iban 0 2)

def nameLongMsg : String := "debitor name is too long."

def streetLongMsg : String := "debitor street is too long."

def cityLongMsg : String := "debitor city is too long."

def countryLongMsg : String := "debitor country is too long."

/-- The catch-block message of the duplicated name check. -/
def nameInvalidMsg (a : DebitorArgs) : String :=
  a.pullFrom ++ " has invalid name: " ++ "\"" ++ a.name ++ "\""

/-- The catch-block message of the IBAN/BIC group. -/
def ibanBicMsg (a : DebitorArgs) : String :=
  "country mismatch in BIC/IBAN for " ++ a.pullFrom ++ " called " ++ a.name ++
    " with BIC: " ++ a.bic ++ " and IBAN: " ++ a.iban

/-- `assert_debitor({name, street, city, country, iban, bic, pullFrom})`
from the source: the checks run in order, each failing check appends its
field name to `invalidFields` and overwrites `message` (so the last failing
check's text wins); the name-validity `try`/`catch` appears twice in the
source and is translated twice; one structured `InvalidSupplierError` is
thrown at the end when any field failed.  The state pair is
`(invalidFields, message)`. -/
def assert_debitor (a : DebitorArgs) : Except SepaError Unit :=
  let s0 : List String × String := ([], "")
  let s1 := if nameLongB a then (s0.1 ++ ["name"], nameLongMsg) else s0
  let s2 := if streetLongB a then (s1.1 ++ ["street"], streetLongMsg) else s1
  let s3 := if cityLongB a then (s2.1 ++ ["city"], cityLongMsg) else s2
  let s4 := if countryLongB a then (s3.1 ++ ["country"], countryLongMsg) else s3
  let s5 := if nameInvalidB a then (s4.1 ++ [a.pullFrom ++ "Name"], nameInvalidMsg a) else s4
  let s6 := if nameInvalidB a then (s5.1 ++ [a.pullFrom ++ "Name"], nameInvalidMsg a) else s5
  let s7 := if ibanBicFailB a then (s6.1 ++ ["IBAN/BIC"], ibanBicMsg a) else s6
  if s7.1.isEmpty then .ok ()
  else .error (.invalidSupplier a.name s7.1 s7.2)

/-- The ordered violation table of the counterparty cross-field check as
the spec enumerates it: one entry per failing check in check order, each
carrying the invalid field name and its message (the name-validity check is
duplicated in the source and contributes two entries).  This is the
spec-side description against which `assert_debitor` is compared. -/
def debitorViolations (a : DebitorArgs) : List (String × String) :=
  (if nameLongB a then [("name", nameLongMsg)] else []) ++
  (if streetLongB a then [("street", streetLongMsg)] else []) ++
  (if cityLongB a then [("city", cityLongMsg)] else []) ++
  (if countryLongB a then [("country", countryLongMsg)] else []) ++
  (if nameInvalidB a then
    [(a.pullFrom ++ "Name", nameInvalidMsg a), (a.pullFrom ++ "Name", nameInvalidMsg a)]
   else []) ++
  (if ibanBicFailB a then [("IBAN/BIC", ibanBicMsg a)] else [])

/-- `SepaPaymentInfo.validate` from the source: instrument / sequence-type
fixed choices, the method-selected date, the creditor or debtor id
checksum, the counterparty cross-field check on the method-selected role,
then the minimum-transaction-count call (which passes the *number*
`_payments.length` to the string-oriented `assert_length`). -/
def SepaPaymentInfo.validate (p : SepaPaymentInfo) : Except SepaError Unit := do
  let pullCreditor := p.method == PaymentInfoTypes.DirectDebit
  assert_fixed p.localInstrumentation ["CORE", "COR1", "B2B"] "localInstrumentation"
  assert_fixed p.sequenceType ["FRST", "RCUR", "OOFF", "FNAL"] "sequenceType"
  if p.method == PaymentInfoTypes.DirectDebit then
    assert_date p.collectionDate "collectionDate"
  else
    assert_date p.requestedExecutionDate "requestedExecutionDate"
  assert_cid (if pullCreditor then p.creditorId else p.debtorId)
    ((if pullCreditor then "creditor" else "debtor") ++ "Id")
  assert_debitor {
    name := if pullCreditor then p.creditorName else p.debtorName,
    street := if pullCreditor then p.creditorStreet else p.debtorStreet,
    city := if pullCreditor then p.creditorCity else p.debtorCity,
    country := if pullCreditor then p.creditorCountry else p.debtorCountry,
    iban := if pullCreditor then p.creditorIBAN else p.debtorIBAN,
    bic := if pullCreditor then p.creditorBIC else p.debtorBIC,
    pullFrom := if pullCreditor then "creditor" else "debtor" }
  assert_length (.vnum (p._payments.length : ℚ)) (some 1) none "_payments"

/-- JS `parseInt(q.toString(), 10)` as a rational: truncation toward zero. -/
def ratTrunc (q : ℚ) : ℚ :=
  ((q.num / (q.den : Int) : Int) : ℚ)

/-- `amount.toString().split('.')[1].length` for an exact decimal amount:
the number of fractional digits of the shortest terminating decimal
expansion (searched up to 20 digits). -/
def decFracLen (q : ℚ) : Nat :=
  ((List.range 21).find? (fun k => (10 ^ k) % q.den == 0)).getD 20

/-- `SepaTransaction.validate` from the source.  The guard
`!(parseInt(amount.toString()) == amount)` is non-integrality of the
amount; inside it, the fractional-digit count must be at most 2. -/
def SepaTransaction.validate (t : SepaTransaction) : Except SepaError Unit := do
  let pullCreditor := t._type == TransactionTypes.Transfer
  assert_sepa_id_set1 t.end2endId "end2endId"
  assert_range t.amount (mkRat 1 100) (mkRat 99999999999 100) "amount"
  if ¬ (ratTrunc t.amount = t.amount) then
    assert (decide (decFracLen t.amount ≤ 2)) "amount has too many fractional digits"
  assert_length (match t.purposeCode with | none => .vnull | some s => .vstr s)
    (some 1) (some 4) "purposeCode"
  assert_sepa_id_set2 t.mandateId "mandateId"
  assert_date t.mandateSignatureDate "mandateSignatureDate"
  assert_debitor {
    name := if pullCreditor then t.creditorName else t.debtorName,
    street := if pullCreditor then t.creditorStreet else t.debtorStreet,
    city := if pullCreditor then t.creditorCity else t.debtorCity,
    country := if pullCreditor then t.creditorCountry else t.debtorCountry,
    iban := if pullCreditor then t.creditorIBAN else t.debtorIBAN,
    bic := if pullCreditor then t.creditorBIC else t.debtorBIC,
    pullFrom := if pullCreditor then "creditor" else "debtor" }
  assert_length (.vstr t.remittanceInfo) none (some 140) "remittanceInfo"


/-! ## XML rendering engine -/

/-- A rendered XML element: tag name, attributes, own text content, and
child elements in document order (the shape the DOM tree has after the
source's `createXMLHelper` calls). -/
inductive XElem where
  | mk (name : String) (attrs : List (String × String)) (text : String)
      (children : List XElem)

/-- Tag name of an element. -/
def XElem.name : XElem → String
  | .mk n _ _ _ => n

/-- Attributes of an element. -/
def XElem.attrs : XElem → List (String × String)
  | .mk _ a _ _ => a

/-- Text content of an element. -/
def XElem.text : XElem → String
  | .mk _ _ t _ => t

/-- Child elements of an element. -/
def XElem.children : XElem → List XElem
  | .mk _ _ _ c => c

/-- A leaf element with text content: `r(parent, name, value)`. -/
def leaf (n v : String) : XElem :=
  .mk n [] v []

/-- The nested chain of elements the `r` helper creates for several names:
each name wraps the next, the innermost carries the text value and the
attributes that the caller sets on the returned (innermost) node.  The
empty-name case is unreachable at every call site. -/
def xchain (names : List String) (v : String)
    (attrs : List (String × String)) : XElem :=
  match names with
  | [] => .mk "" attrs v []
  | [n] => .mk n attrs v []
  | n :: rest => .mk n [] "" [xchain rest v attrs]

/-- First direct child with the given tag name. -/
def XElem.findChild (e : XElem) (n : String) : Option XElem :=
  e.children.find? (fun c => c.name == n)

/-- Number of direct children with the given tag name. -/
def countChild (e : XElem) (n : String) : Nat :=
  (e.children.filter (fun c => c.name == n)).length

/-- The text content reached by following a path of tag names, taking the
first matching child at each step. -/
def XElem.textAt (e : XElem) (path : List String) : Option String :=
  (path.foldlM XElem.findChild e).map XElem.text

/-- `SepaGroupHeader.toXML` from the source.  Child order: `MsgId`,
`CreDtTm`, (v2 only: `BtchBookg`), `NbOfTxs`, `CtrlSum`, (v2 only:
`Grpg`), `InitgPty` with `Nm` and the optional CIF / CUC identification
blocks.  `created.toISOString()` raises on a null or invalid date. -/
def SepaGroupHeader.toXML (gh : SepaGroupHeader) : Except SepaError XElem := do
  let iso ← jsToISOString gh.created
  let painVersion := getPainXMLVersion gh._painFormat
  pure (.mk "GrpHdr" [] ""
    ([leaf "MsgId" gh.id, leaf "CreDtTm" iso]
     ++ (if painVersion = some 2 then
          [leaf "BtchBookg" (boolToString gh.batchBooking)]
         else [])
     ++ [leaf "NbOfTxs" (natToString gh.transactionCount),
         leaf "CtrlSum" (qToFixed2 gh.controlSum)]
     ++ (if painVersion = some 2 then [leaf "Grpg" gh.grouping] else [])
     ++ [.mk "InitgPty" [] ""
          ([leaf "Nm" gh.initiatorName]
           ++ (if jsTruthyS gh.cifNumber then
                [xchain ["Id", "OrgId", "Othr", "Id"] gh.cifNumber []]
               else [])
           ++ (if jsTruthyS gh.cucNumber then
                [.mk "Id" [] "" [.mk "OrgId" [] "" [.mk "Othr" [] ""
                  [leaf "Id" gh.cucNumber, leaf "Issr" "CBI"]]]]
               else []))]))

/-- `SepaTransaction.toXML` from the source; `validationsEnabled` threads
the module-global flag.  The `pullFrom` role follows `_type`; the postal
address block reproduces the source exactly, including its use of the
DEBTOR address fields regardless of the resolved role (a defect the spec's
design notes record). -/
def SepaTransaction.toXML (validationsEnabled : Bool) (t : SepaTransaction) :
    Except SepaError XElem := do
  if validationsEnabled then t.validate
  let pullCreditor := t._type == TransactionTypes.Transfer
  let recvName := if pullCreditor then "Cdtr" else "Dbtr"
  let pName := if pullCreditor then t.creditorName else t.debtorName
  let pStreet := if pullCreditor then t.creditorStreet else t.debtorStreet
  let pCity := if pullCreditor then t.creditorCity else t.debtorCity
  let pCountry := if pullCreditor then t.creditorCountry else t.debtorCountry
  let pIBAN := if pullCreditor then t.creditorIBAN else t.debtorIBAN
  let pBIC := if pullCreditor then t.creditorBIC else t.debtorBIC
  let amtNodes ←
    if t._type == TransactionTypes.DirectDebit then do
      let sig ← jsToISOString t.mandateSignatureDate
      pure [xchain ["InstdAmt"] (qToFixed2 t.amount) [("Ccy", t.currency)],
            XElem.mk "DrctDbtTx" [] "" [.mk "MndtRltdInf" [] ""
              ([leaf "MndtId" t.mandateId,
                leaf "DtOfSgntr" (jsSubstr sig 0 10)]
               ++ (if jsTruthyS t.ammendment then
                     [leaf "AmdmntInd" "true", leaf "AmdmnInfDtls" t.ammendment]
                   else [leaf "AmdmntInd" "false"]))]]
    else
      pure [XElem.mk "Amt" [] ""
        [xchain ["InstdAmt"] (qToFixed2 t.amount) [("Ccy", t.currency)]]]
  pure (.mk t._type [] ""
    ([XElem.mk "PmtId" [] "" [leaf "InstrId" t.id, leaf "EndToEndId" t.end2endId]]
     ++ amtNodes
     ++ [if jsTruthyS pBIC then
           XElem.mk (recvName ++ "Agt") [] "" [.mk "FinInstnId" [] "" [leaf "BIC" pBIC]]
         else xchain [recvName ++ "Agt", "FinInstnId", "Othr", "Id"] "NOTPROVIDED" []]
     ++ [XElem.mk recvName [] ""
          ([leaf "Nm" pName]
           ++ (if jsTruthyO pStreet && jsTruthyO pCity && jsTruthyO pCountry then
                 [XElem.mk "PstlAdr" [] ""
                   [leaf "Ctry" (t.debtorCountry.getD ""),
                    leaf "AdrLine" (t.debtorStreet.getD ""),
                    leaf "AdrLine" (t.debtorCity.getD "")]]
               else []))]
     ++ [xchain [recvName ++ "Acct", "Id", "IBAN"] pIBAN []]
     ++ [xchain ["RmtInf", "Ustrd"] t.remittanceInfo []]
     ++ (match t.purposeCode with
         | some s => if s ≠ "" then [xchain ["Purp", "Cd"] s []] else []
         | none => [])))

/-- `SepaPaymentInfo.toXML` from the source; `validationsEnabled` threads
the module-global flag (validation runs first when enabled).  Child order:
`PmtInfId`, `PmtMtd`, (v3 only: `BtchBookg`, `NbOfTxs`, `CtrlSum`),
`PmtTpInf`, the method-selected date node, the emitter (`Cdtr`/`Dbtr`),
its account, its agent (`BIC` or the `NOTPROVIDED` fallback), `ChrgBr`,
(direct debit only: `CdtrSchmeId`), then the rendered transactions. -/
def SepaPaymentInfo.toXML (validationsEnabled : Bool) (p : SepaPaymentInfo) :
    Except SepaError XElem := do
  if validationsEnabled then p.validate
  let pullCreditor := p.method == PaymentInfoTypes.DirectDebit
  let emitterNodeName := if pullCreditor then "Cdtr" else "Dbtr"
  let pName := if pullCreditor then p.creditorName else p.debtorName
  let pStreet := if pullCreditor then p.creditorStreet else p.debtorStreet
  let pCity := if pullCreditor then p.creditorCity else p.debtorCity
  let pCountry := if pullCreditor then p.creditorCountry else p.debtorCountry
  let pIBAN := if pullCreditor then p.creditorIBAN else p.debtorIBAN
  let pBIC := if pullCreditor then p.creditorBIC else p.debtorBIC
  let pMemberId := if pullCreditor then p.creditorMemberId else p.debtorMemberId
  let dateNode ←
    if p.method == PaymentInfoTypes.DirectDebit then do
      let iso ← jsToISOString p.collectionDate
      pure (leaf "ReqdColltnDt" (jsSubstr iso 0 10))
    else do
      let iso ← jsToISOString p.requestedExecutionDate
      pure (leaf "ReqdExctnDt" (jsSubstr iso 0 10))
  let txNodes ← p._payments.mapM (SepaTransaction.toXML validationsEnabled)
  pure (.mk "PmtInf" [] ""
    ([leaf "PmtInfId" p.id, leaf "PmtMtd" p.method]
     ++ (if getPainXMLVersion p._painFormat = some 3 then
          [leaf "BtchBookg" (boolToString p.batchBooking),
           leaf "NbOfTxs" (natToString p.transactionCount),
           leaf "CtrlSum" (qToFixed2 p.controlSum)]
         else [])
     ++ [XElem.mk "PmtTpInf" [] ""
          ([leaf "InstrPrty" p.instructionPriority,
            xchain ["SvcLvl", "Cd"] "SEPA" []]
           ++ (if jsTruthyS p.categoryPurpose then
                [xchain ["CtgyPurp", "Cd"] p.categoryPurpose []]
               else [])
           ++ (if p.method == PaymentInfoTypes.DirectDebit then
                [xchain ["LclInstrm", "Cd"] p.localInstrumentation [],
                 leaf "SeqTp" p.sequenceType]
               else []))]
     ++ [dateNode]
     ++ [XElem.mk emitterNodeName [] ""
          ([leaf "Nm" pName]
           ++ (if jsTruthyO pStreet && jsTruthyO pCity && jsTruthyO pCountry then
                 [XElem.mk "PstlAdr" [] ""
                   [leaf "Ctry" (pCountry.getD ""),
                    leaf "AdrLine" (pStreet.getD ""),
                    leaf "AdrLine" (pCity.getD "")]]
               else []))]
     ++ [xchain [emitterNodeName ++ "Acct", "Id", "IBAN"] pIBAN []]
     ++ [if jsTruthyS pBIC then
           XElem.mk (emitterNodeName ++ "Agt") [] "" [.mk "FinInstnId" [] ""
             ([leaf "BIC" pBIC]
              ++ (if jsTruthyS pMemberId then
                   [xchain ["ClrSysMmbId", "MmbId"] pMemberId []]
                  else []))]
         else xchain [emitterNodeName ++ "Agt", "FinInstnId", "Othr", "Id"] "NOTPROVIDED" []]
     ++ [xchain ["ChrgBr"] "SLEV" []]
     ++ (if p.method == PaymentInfoTypes.DirectDebit then
          [XElem.mk "CdtrSchmeId" [] "" [.mk "Id" [] "" [.mk "PrvtId" [] "" [.mk "Othr" [] ""
            [leaf "Id" p.creditorId, xchain ["SchmeNm", "Prtry"] "SEPA" []]]]]]
         else [])
     ++ txNodes))


/-! ## Checksum engine lemmas -/

theorem data_append (s t : String) : (s ++ t).data = s.data ++ t.data := by
  cases s; cases t; rfl

theorem replaceCharsL_append (a b : List Char) :
    replaceCharsL (a ++ b) = replaceCharsL a ++ replaceCharsL b := by
  induction a with
  | nil => rfl
  | cons c cs ih => simp [replaceCharsL, ih]

theorem toDigits_all_digits :
    ∀ n : Nat, n < 36 → (Nat.toDigits 10 n).all isDigitCharB = true := by
  decide

theorem replaceChar_all_digits (c : Char) : (replaceChar c).all isDigitCharB = true := by
  unfold replaceChar
  split
  · exact toDigits_all_digits _ (by omega)
  · split
    · exact toDigits_all_digits _ (by omega)
    · split
      · simp_all [isDigitCharB]
      · rfl

theorem replaceCharsL_all_digits (l : List Char) :
    (replaceCharsL l).all isDigitCharB = true := by
  induction l with
  | nil => rfl
  | cons c cs ih =>
      simp only [replaceCharsL, List.all_append]
      rw [replaceChar_all_digits c, ih]
      rfl

theorem replaceCharsL_of_digits (l : List Char) (h : l.all isDigitCharB = true) :
    replaceCharsL l = l := by
  induction l with
  | nil => rfl
  | cons c cs ih =>
      simp only [List.all_cons, Bool.and_eq_true] at h
      have hc : (48 ≤ c.toNat ∧ c.toNat ≤ 57) := by
        have := h.1
        simpa [isDigitCharB] using this
      simp only [replaceCharsL, replaceChar]
      rw [if_neg (by omega), if_neg (by omega), if_pos hc, ih h.2]
      rfl

theorem txtMod97Go_append (r : Option Nat) (a b : List Char) :
    txtMod97Go r (a ++ b) = txtMod97Go (txtMod97Go r a) b := by
  induction a generalizing r with
  | nil => rfl
  | cons c cs ih => simp [txtMod97Go, ih]

theorem natOfDigits_shift (l : List Char) (r : Nat) :
    l.foldl (fun a c => a * 10 + digitVal c) r = r * 10 ^ l.length + natOfDigits l := by
  induction l generalizing r with
  | nil => simp [natOfDigits]
  | cons c cs ih =>
      simp only [List.foldl_cons, natOfDigits, ih (r * 10 + digitVal c),
        ih (0 * 10 + digitVal c), List.length_cons]
      ring

theorem natOfDigits_cons (c : Char) (cs : List Char) :
    natOfDigits (c :: cs) = digitVal c * 10 ^ cs.length + natOfDigits cs := by
  simp only [natOfDigits, List.foldl_cons]
  simpa using natOfDigits_shift cs (digitVal c)

theorem natOfDigits_append (a b : List Char) :
    natOfDigits (a ++ b) = natOfDigits a * 10 ^ b.length + natOfDigits b := by
  simp only [natOfDigits, List.foldl_append]
  exact natOfDigits_shift b _

theorem txtMod97Go_digits (l : List Char) (r : Nat) (hr : r < 97)
    (h : l.all isDigitCharB = true) :
    txtMod97Go (some r) l = some ((r * 10 ^ l.length + natOfDigits l) % 97) := by
  induction l generalizing r with
  | nil =>
      simp [txtMod97Go, natOfDigits, Nat.mod_eq_of_lt hr]
  | cons c cs ih =>
      simp only [List.all_cons, Bool.and_eq_true] at h
      have hc : (48 ≤ c.toNat ∧ c.toNat ≤ 57) := by
        have := h.1
        simpa [isDigitCharB] using this
      have hstep : txtMod97Go (some r) (c :: cs) =
          txtMod97Go (some ((r * 10 + digitVal c) % 97)) cs := by
        simp [txtMod97Go, parseDigit, if_pos hc, digitVal]
      rw [hstep, ih _ (Nat.mod_lt _ (by norm_num)) h.2]
      congr 1
      have hmod : (r * 10 + digitVal c) % 97 ≡ r * 10 + digitVal c [MOD 97] :=
        (Nat.mod_modEq _ 97)
      have h2 : ((r * 10 + digitVal c) % 97) * 10 ^ cs.length + natOfDigits cs ≡
          (r * 10 + digitVal c) * 10 ^ cs.length + natOfDigits cs [MOD 97] :=
        (hmod.mul_right _).add_right _
      have h3 : (((r * 10 + digitVal c) % 97) * 10 ^ cs.length + natOfDigits cs) % 97 =
          ((r * 10 + digitVal c) * 10 ^ cs.length + natOfDigits cs) % 97 := h2
      rw [natOfDigits_cons, List.length_cons]
      rw [h3]
      congr 1
      ring

theorem txtMod97_replaceChars_isSome (s : String) :
    ∃ m, m < 97 ∧ _txtMod97 (_replaceChars s) = some m := by
  have h := txtMod97Go_digits (replaceCharsL s.data) 0 (by norm_num)
    (replaceCharsL_all_digits s.data)
  exact ⟨_, Nat.mod_lt _ (by norm_num), h⟩

/-- Facts about the two-character check-digit splice `('0' + d).substr(-2, 2)`
for every value `d = 98 - mod` that can arise (`0 ≤ mod ≤ 96` gives
`2 ≤ d ≤ 98`; we prove all `d < 99`): it has exactly two characters, both
decimal digits, and denotes `d`. -/
theorem padded_check_digits (d : Nat) (hd : d < 99) :
    (jsSubstrNeg2 ("0" ++ natToString d)).data.length = 2 ∧
    (jsSubstrNeg2 ("0" ++ natToString d)).data.all isDigitCharB = true ∧
    natOfDigits (jsSubstrNeg2 ("0" ++ natToString d)).data = d := by
  revert d
  decide

theorem txtMod97_replaceChars (t : String) :
    _txtMod97 (_replaceChars t) = txtMod97Go (some 0) (replaceCharsL t.data) := rfl

theorem natOfDigits_zeros : natOfDigits ['0', '0'] = 0 := by decide

/-- Core of the checksum round trip, at the level of the digit string `R`
produced by `_replaceChars` from the rotated identifier: if the checksum
pass computed `m` from `R ++ "00"`, then the validation pass accepts
`R` followed by the spliced check digits. -/
theorem roundtrip_core (R mid : List Char) (hR : R.all isDigitCharB = true)
    (m : Nat) (hm : txtMod97Go (some 0) (R ++ ['0', '0']) = some m)
    (hmid : mid = (jsSubstrNeg2 ("0" ++ natToString (98 - m))).data) :
    txtMod97Go (some 0) (R ++ mid) = some 1 ∧ mid.length = 2 ∧
    mid.all isDigitCharB = true := by
  have hz : (['0', '0'] : List Char).all isDigitCharB = true := by decide
  have h00 : (R ++ ['0', '0']).all isDigitCharB = true := by
    rw [List.all_append, hR, hz]; rfl
  have hval := txtMod97Go_digits (R ++ ['0', '0']) 0 (by norm_num) h00
  rw [hval] at hm
  have hm2 : m = (0 * 10 ^ (R ++ ['0', '0']).length +
      natOfDigits (R ++ ['0', '0'])) % 97 := (Option.some.injEq _ _ ▸ hm).symm
  have hmval : m = (natOfDigits R * 100) % 97 := by
    rw [hm2, natOfDigits_append, natOfDigits_zeros]
    norm_num
  have hmlt : m < 97 := by
    rw [hmval]; exact Nat.mod_lt _ (by norm_num)
  have hd : 98 - m < 99 := by omega
  obtain ⟨hlen, hdig, hv⟩ := padded_check_digits (98 - m) hd
  rw [← hmid] at hlen hdig hv
  refine ⟨?_, hlen, hdig⟩
  have hall : (R ++ mid).all isDigitCharB = true := by
    rw [List.all_append, hR, hdig]; rfl
  rw [txtMod97Go_digits (R ++ mid) 0 (by norm_num) hall]
  congr 1
  rw [natOfDigits_append, hv, hlen]
  rw [hmval]
  omega

/-- C1 (checksum round-trip): for every IBAN whose check digits
(positions 3–4) are the placeholder `00`, validating the checksummed IBAN
succeeds, and the analogous round trip holds for creditor identifiers
(whose layout has a 7-character fixed prefix: country code, check digits
and the 3-character business code). -/
theorem checksum_roundtrip (iban cid : String)
    (hib : ∃ c1 c2 rest, iban.data = c1 :: c2 :: '0' :: '0' :: rest)
    (hcid : ∃ c1 c2 z1 z2 z3 rest,
      cid.data = c1 :: c2 :: '0' :: '0' :: z1 :: z2 :: z3 :: rest) :
    validateIBAN (checksumIBAN iban) = true ∧
    validateCreditorID (checksumCreditorID cid) = true := by
  constructor
  · obtain ⟨c1, c2, rest, hib⟩ := hib
    have hiban : iban = ⟨c1 :: c2 :: '0' :: '0' :: rest⟩ := String.ext hib
    subst hiban
    have harg : (jsSubstrFrom ⟨c1 :: c2 :: '0' :: '0' :: rest⟩ 4 ++
        jsSubstr ⟨c1 :: c2 :: '0' :: '0' :: rest⟩ 0 2 ++ "00").data =
        (rest ++ [c1, c2]) ++ ['0', '0'] := by
      simp [jsSubstrFrom, jsSubstr, data_append]
    set R := replaceCharsL (rest ++ [c1, c2]) with hRdef
    have hR : R.all isDigitCharB = true := replaceCharsL_all_digits _
    have hz : replaceCharsL ['0', '0'] = ['0', '0'] := by decide
    have hmsome := txtMod97_replaceChars_isSome
      (jsSubstrFrom ⟨c1 :: c2 :: '0' :: '0' :: rest⟩ 4 ++
        jsSubstr ⟨c1 :: c2 :: '0' :: '0' :: rest⟩ 0 2 ++ "00")
    obtain ⟨m, hmlt, hm⟩ := hmsome
    have hmR : txtMod97Go (some 0) (R ++ ['0', '0']) = some m := by
      rw [txtMod97_replaceChars, harg, replaceCharsL_append, hz] at hm
      exact hm
    obtain ⟨hone, hlen, hdig⟩ := roundtrip_core R
      ((jsSubstrNeg2 ("0" ++ natToString (98 - m))).data) hR m hmR rfl
    have hout : (checksumIBAN ⟨c1 :: c2 :: '0' :: '0' :: rest⟩).data =
        [c1, c2] ++ (jsSubstrNeg2 ("0" ++ natToString
          (98 - (_txtMod97 (_replaceChars (jsSubstrFrom ⟨c1 :: c2 :: '0' :: '0' :: rest⟩ 4 ++
            jsSubstr ⟨c1 :: c2 :: '0' :: '0' :: rest⟩ 0 2 ++ "00"))).getD 0))).data
          ++ rest := by
      simp [checksumIBAN, jsSubstr, jsSubstrFrom, data_append]
    rw [hm] at hout
    simp only [Option.getD_some] at hout
    set mid := (jsSubstrNeg2 ("0" ++ natToString (98 - m))).data with hmiddef
    obtain ⟨d1, d2, hmid2⟩ := List.length_eq_two.mp hlen
    rw [hmid2] at hout
    simp only [validateIBAN]
    rw [txtMod97_replaceChars]
    have hrot : ((checksumIBAN ⟨c1 :: c2 :: '0' :: '0' :: rest⟩).data.drop 4 ++
        (checksumIBAN ⟨c1 :: c2 :: '0' :: '0' :: rest⟩).data.take 4) =
        (rest ++ [c1, c2]) ++ [d1, d2] := by
      rw [hout]
      simp
    have harg2 : (jsSubstrFrom (checksumIBAN ⟨c1 :: c2 :: '0' :: '0' :: rest⟩) 4 ++
        jsSubstr (checksumIBAN ⟨c1 :: c2 :: '0' :: '0' :: rest⟩) 0 4).data =
        (rest ++ [c1, c2]) ++ [d1, d2] := by
      rw [data_append]
      simpa [jsSubstrFrom, jsSubstr] using hrot
    rw [harg2, replaceCharsL_append, ← hRdef,
      replaceCharsL_of_digits [d1, d2] (hmid2 ▸ hdig), ← hmid2, hone]
    rfl
  · obtain ⟨c1, c2, z1, z2, z3, rest, hc⟩ := hcid
    have hcid2 : cid = ⟨c1 :: c2 :: '0' :: '0' :: z1 :: z2 :: z3 :: rest⟩ := String.ext hc
    subst hcid2
    have harg : (jsSubstrFrom ⟨c1 :: c2 :: '0' :: '0' :: z1 :: z2 :: z3 :: rest⟩ 7 ++
        jsSubstr ⟨c1 :: c2 :: '0' :: '0' :: z1 :: z2 :: z3 :: rest⟩ 0 2 ++ "00").data =
        (rest ++ [c1, c2]) ++ ['0', '0'] := by
      simp [jsSubstrFrom, jsSubstr, data_append]
    set R := replaceCharsL (rest ++ [c1, c2]) with hRdef
    have hR : R.all isDigitCharB = true := replaceCharsL_all_digits _
    have hz : replaceCharsL ['0', '0'] = ['0', '0'] := by decide
    obtain ⟨m, hmlt, hm⟩ := txtMod97_replaceChars_isSome
      (jsSubstrFrom ⟨c1 :: c2 :: '0' :: '0' :: z1 :: z2 :: z3 :: rest⟩ 7 ++
        jsSubstr ⟨c1 :: c2 :: '0' :: '0' :: z1 :: z2 :: z3 :: rest⟩ 0 2 ++ "00")
    have hmR : txtMod97Go (some 0) (R ++ ['0', '0']) = some m := by
      rw [txtMod97_replaceChars, harg, replaceCharsL_append, hz] at hm
      exact hm
    obtain ⟨hone, hlen, hdig⟩ := roundtrip_core R
      ((jsSubstrNeg2 ("0" ++ natToString (98 - m))).data) hR m hmR rfl
    have hout : (checksumCreditorID ⟨c1 :: c2 :: '0' :: '0' :: z1 :: z2 :: z3 :: rest⟩).data =
        [c1, c2] ++ (jsSubstrNeg2 ("0" ++ natToString
          (98 - (_txtMod97 (_replaceChars (jsSubstrFrom ⟨c1 :: c2 :: '0' :: '0' :: z1 :: z2 :: z3 :: rest⟩ 7 ++
            jsSubstr ⟨c1 :: c2 :: '0' :: '0' :: z1 :: z2 :: z3 :: rest⟩ 0 2 ++ "00"))).getD 0))).data
          ++ (z1 :: z2 :: z3 :: rest) := by
      simp [checksumCreditorID, jsSubstr, jsSubstrFrom, data_append]
    rw [hm] at hout
    simp only [Option.getD_some] at hout
    obtain ⟨d1, d2, hmid2⟩ := List.length_eq_two.mp hlen
    rw [hmid2] at hout
    simp only [validateCreditorID]
    rw [txtMod97_replaceChars]
    have harg2 : (jsSubstrFrom (checksumCreditorID ⟨c1 :: c2 :: '0' :: '0' :: z1 :: z2 :: z3 :: rest⟩) 7 ++
        jsSubstr (checksumCreditorID ⟨c1 :: c2 :: '0' :: '0' :: z1 :: z2 :: z3 :: rest⟩) 0 4).data =
        (rest ++ [c1, c2]) ++ [d1, d2] := by
      rw [data_append]
      simp only [jsSubstrFrom, jsSubstr]
      rw [hout]
      simp
    rw [harg2, replaceCharsL_append, ← hRdef,
      replaceCharsL_of_digits [d1, d2] (hmid2 ▸ hdig), ← hmid2, hone]
    rfl

/-- Witness for C1: the two example vectors from the source documentation,
`DE00123456781234567890` and `DE00ZZZ09999999999`. -/
theorem checksum_roundtrip_witness :
    validateIBAN (checksumIBAN "DE00123456781234567890") = true ∧
    validateCreditorID (checksumCreditorID "DE00ZZZ09999999999") = true :=
  checksum_roundtrip "DE00123456781234567890" "DE00ZZZ09999999999"
    ⟨'D', 'E', "123456781234567890".data, by decide⟩
    ⟨'D', 'E', 'Z', 'Z', 'Z', "09999999999".data, by decide⟩

/-- C8 (checksum determinism and frame): `checksumIBAN` is a pure function
of its input string — equal inputs give equal outputs — and the output is
the input's first two characters, followed by two (check-digit) characters,
followed by the input from position 5 onward: every character outside
positions 3–4 is returned unchanged.  Determinism holds definitionally in
this embedding, since `checksumIBAN` is a function. -/
theorem checksumIBAN_frame (iban : String) :
    (∀ t : String, t.data = iban.data → checksumIBAN t = checksumIBAN iban) ∧
    ∃ d1 d2 : Char,
      checksumIBAN iban = ⟨iban.data.take 2 ++ [d1, d2] ++ iban.data.drop 4⟩ := by
  constructor
  · intro t h
    rw [String.ext h]
  · obtain ⟨m, hmlt, hm⟩ := txtMod97_replaceChars_isSome
      (jsSubstrFrom iban 4 ++ jsSubstr iban 0 2 ++ "00")
    obtain ⟨hlen, hdig, hval⟩ := padded_check_digits (98 - m) (by omega)
    obtain ⟨d1, d2, hmid⟩ := List.length_eq_two.mp hlen
    refine ⟨d1, d2, String.ext ?_⟩
    simp only [checksumIBAN]
    rw [hm]
    simp only [Option.getD_some]
    rw [data_append, data_append, hmid]
    simp [jsSubstr, jsSubstrFrom]

/-- Witness for C8, at the documentation example `DE00123456781234567890`. -/
theorem checksumIBAN_frame_witness :
    (∀ t : String, t.data = ("DE00123456781234567890" : String).data →
      checksumIBAN t = checksumIBAN "DE00123456781234567890") ∧
    ∃ d1 d2 : Char,
      checksumIBAN "DE00123456781234567890" =
        ⟨("DE00123456781234567890" : String).data.take 2 ++ [d1, d2] ++
          ("DE00123456781234567890" : String).data.drop 4⟩ :=
  checksumIBAN_frame "DE00123456781234567890"

theorem validateIBAN_data (u : String) :
    validateIBAN u =
      (txtMod97Go (some 0)
        (replaceCharsL (u.data.drop 4 ++ (u.data.drop 0).take 4)) == some 1) := rfl

theorem replaceChar_toUpperAscii (c : Char) :
    replaceChar (toUpperAscii c) = replaceChar c := by
  unfold toUpperAscii
  by_cases h : 97 ≤ c.toNat ∧ c.toNat ≤ 122
  · rw [if_pos h]
    have hto : (Char.ofNat (c.toNat - 32)).toNat = c.toNat - 32 := by
      unfold Char.ofNat
      rw [dif_pos (Or.inl (by omega))]
      rfl
    unfold replaceChar
    rw [hto, if_pos (by omega), if_neg (by omega), if_pos (by omega)]
    congr 1
  · rw [if_neg h]

theorem replaceCharsL_map_upper (l : List Char) :
    replaceCharsL (l.map toUpperAscii) = replaceCharsL l := by
  induction l with
  | nil => rfl
  | cons c cs ih => simp [replaceCharsL, replaceChar_toUpperAscii, ih]

/-- C10 (implicit — case-insensitivity of the checksum engine): the
letter-replacement step maps each lowercase letter to the same two-digit
value as the corresponding uppercase letter (a=10 … z=35), hence
`validateIBAN` yields the same verdict on a string and on its (ASCII)
uppercased form. -/
theorem validateIBAN_case_insensitive (s : String) :
    validateIBAN (jsToUpperStr s) = validateIBAN s := by
  rw [validateIBAN_data, validateIBAN_data]
  have hdata : (jsToUpperStr s).data = s.data.map toUpperAscii := rfl
  rw [hdata, List.drop_zero, List.drop_zero,
    ← List.map_drop, ← List.map_take, ← List.map_append, replaceCharsL_map_upper]

/-! ## Entity model theorems: id prefixing and normalization -/

theorem pi_normalize_idem (p : SepaPaymentInfo) :
    SepaPaymentInfo.normalize (SepaPaymentInfo.normalize p) =
      SepaPaymentInfo.normalize p := by
  cases p
  rfl

/-- C4 (normalization idempotence): running the normalization pass twice in
succession on an unchanged document tree yields exactly the same document —
in particular the same control sums on the group header and on every
payment info block, and the same transaction counts — as running it once. -/
theorem normalize_idempotent (d : SepaDocument) :
    SepaDocument.normalize (SepaDocument.normalize d) = SepaDocument.normalize d := by
  have hmap : (d._paymentInfo.map SepaPaymentInfo.normalize).map SepaPaymentInfo.normalize
      = d._paymentInfo.map SepaPaymentInfo.normalize := by
    rw [List.map_map]
    exact List.map_congr_left (fun p _ => pi_normalize_idem p)
  cases d with
  | mk pf ty pis xv xe gh =>
      cases gh
      simp only [SepaDocument.normalize] at hmap ⊢
      simp only [hmap]


/-- C3 (id-prefixing at attach time): attaching three payment info blocks
with no explicit id and no override reference to a document whose group
header id is "MSG1" assigns the ids "MSG1.0", "MSG1.1", "MSG1.2" in
insertion order with the default separator "."; a payment info block or a
transaction carrying an override reference receives exactly that reference
as its id, verbatim, with no prefixing.  The assignment is performed by
`addPaymentInfo`/`addTransaction` itself, exactly once, at attach time (the
constructors of this embedding never touch ids, mirroring the source). -/
theorem id_prefixing_at_attach :
    (∀ (d : SepaDocument) (p1 p2 p3 : SepaPaymentInfo),
      d.grpHdr.id = "MSG1" → d._paymentInfo = [] →
      p1.overrideReference = "" → p1.id = "" →
      p2.overrideReference = "" → p2.id = "" →
      p3.overrideReference = "" → p3.id = "" →
      ((((d.addPaymentInfo "." p1).addPaymentInfo "." p2).addPaymentInfo "." p3)._paymentInfo.map
        SepaPaymentInfo.id) = ["MSG1.0", "MSG1.1", "MSG1.2"]) ∧
    (∀ (d : SepaDocument) (sep : String) (p : SepaPaymentInfo),
      p.overrideReference ≠ "" →
      (d.addPaymentInfo sep p)._paymentInfo.map SepaPaymentInfo.id =
        d._paymentInfo.map SepaPaymentInfo.id ++ [p.overrideReference]) ∧
    (∀ (p : SepaPaymentInfo) (sep : String) (tx : SepaTransaction),
      tx.overrideReference ≠ "" →
      (p.addTransaction sep tx)._payments.map SepaTransaction.id =
        p._payments.map SepaTransaction.id ++ [tx.overrideReference]) := by
  refine ⟨?_, ?_, ?_⟩
  · intro d p1 p2 p3 hg hempty h1o h1i h2o h2i h3o h3i
    cases p1
    cases p2
    cases p3
    simp only at h1o h1i h2o h2i h3o h3i
    subst h1o h1i h2o h2i h3o h3i
    simp [SepaDocument.addPaymentInfo, jsTruthyS, hg, hempty, natToString]
    refine ⟨?_, ?_, ?_⟩ <;> decide
  · intro d sep p ho
    simp [SepaDocument.addPaymentInfo, jsTruthyS, ho]
  · intro p sep tx ho
    simp [SepaPaymentInfo.addTransaction, jsTruthyS, ho]


/-- Witness for C3: a fresh document with group header id "MSG1" and three
default payment info blocks; an override-reference payment info block; an
override-reference transaction. -/
theorem id_prefixing_at_attach_witness :
    (((({ mkDocument (some "pain.008.001.02") with
          grpHdr := { mkGroupHeader "pain.008.001.02" with id := "MSG1" } }.addPaymentInfo "."
        (mkPaymentInfo "pain.008.001.02")).addPaymentInfo "."
        (mkPaymentInfo "pain.008.001.02")).addPaymentInfo "."
        (mkPaymentInfo "pain.008.001.02"))._paymentInfo.map SepaPaymentInfo.id =
      ["MSG1.0", "MSG1.1", "MSG1.2"]) ∧
    (((mkDocument (some "pain.008.001.02")).addPaymentInfo ","
        { mkPaymentInfo "pain.008.001.02" with overrideReference := "OVR-1" })._paymentInfo.map
      SepaPaymentInfo.id = [] ++ ["OVR-1"]) ∧
    (((mkPaymentInfo "pain.008.001.02").addTransaction ","
        { mkTransaction "pain.008.001.02" with overrideReference := "OVR-2" })._payments.map
      SepaTransaction.id = [] ++ ["OVR-2"]) :=
  ⟨id_prefixing_at_attach.1 _ _ _ _ rfl rfl rfl rfl rfl rfl rfl rfl,
   id_prefixing_at_attach.2.1 _ "," _ (by decide),
   id_prefixing_at_attach.2.2 _ "," _ (by decide)⟩

/-! ## Validation engine theorems -/

/-- C6 (code bug): the minimum-transaction-count check can never fire.
`assert_length(this._payments.length, 1, null, '_payments')` passes a
*number* to a string-oriented assertion: the number 0 is falsy, so the
guard `min !== null && str && str.length < min` short-circuits for an empty
transaction list (and a positive count has no `.length`, so the comparison
is false as well).  First conjunct: the check returns ok for EVERY count.
Second conjunct: a concrete direct-debit payment info block with ZERO
transactions and every other field well formed validates successfully,
contradicting the claim that validation must fail. -/
theorem paymentinfo_validate_empty_ok :
    (∀ (q : ℚ) (member : String),
      assert_length (.vnum q) (some 1) none member = .ok ()) ∧
    SepaPaymentInfo.validate { mkPaymentInfo "pain.008.001.02" with
      collectionDate := .validDate "2024-01-01T00:00:00.000Z",
      creditorId := "DE98ZZZ09999999999",
      creditorName := "Creditor",
      creditorIBAN := "DE87123456781234567890" } = .ok () := by
  constructor
  · intro q member
    unfold assert_length jsValTruthy jsValLength
    simp
  · rfl

/-- C7 (corrected): the charset test `str && !str.match(<class>{1,35})` is
an unanchored regex match, so `Transaction.validate` raises the charset
error exactly when the end-to-end id is non-empty and NONE of its
characters belongs to the identifier class — not, as claimed, when it
merely contains one character outside the class.  Second conjunct (the
claim's converse direction, which does hold): any value composed only of
class characters passes the charset check. -/
theorem transaction_validate_charset (t : SepaTransaction)
    (h1 : t.end2endId ≠ "")
    (h2 : t.end2endId.data.all (fun c => !sepaIdSet1Char c) = true) :
    SepaTransaction.validate t = .error (.plain (charsetMsg1 "end2endId" t.end2endId)) ∧
    (∀ s member : String, s.data.all sepaIdSet1Char = true →
      assert_sepa_id_set1 s member = .ok ()) := by
  constructor
  · have hany : t.end2endId.data.any sepaIdSet1Char = false := by
      rw [List.any_eq_false]
      intro c hc
      have := List.all_eq_true.mp h2 c hc
      simpa using this
    have hfirst : assert_sepa_id_set1 t.end2endId "end2endId" =
        .error (.plain (charsetMsg1 "end2endId" t.end2endId)) := by
      unfold assert_sepa_id_set1
      rw [hany]
      simp [jsTruthyS, h1]
    unfold SepaTransaction.validate
    rw [hfirst]
    rfl
  · intro s member hall
    unfold assert_sepa_id_set1
    cases hs : s.data with
    | nil =>
        have hsempty : s = "" := String.ext (by rw [hs])
        simp [hsempty, jsTruthyS]
    | cons c cs =>
        have hc : sepaIdSet1Char c = true :=
          List.all_eq_true.mp hall c (by rw [hs]; exact List.mem_cons_self c cs)
        simp [List.any_cons, hc]

/-- Counterexample to C7 as stated: the end-to-end id `"!a"` contains the
character `!` (code 33), which is outside the SEPA identifier class, yet
the charset check passes (the unanchored regex finds the valid character
`a`), and a transaction carrying this id — with every other field well
formed — validates with no error at all. -/
theorem transaction_validate_charset_cex :
    sepaIdSet1Char (Char.ofNat 33) = false ∧
    assert_sepa_id_set1 "!a" "end2endId" = .ok () ∧
    SepaTransaction.validate { mkTransaction "pain.001.001.03" with
      end2endId := "!a",
      amount := 1,
      mandateSignatureDate := .validDate "2024-01-01T00:00:00.000Z",
      creditorName := "Creditor",
      creditorIBAN := "DE87123456781234567890" } = .ok () := by
  refine ⟨by decide, by rfl, by rfl⟩

/-- Witness for C7 (corrected): the id `"!"` consists solely of characters
outside the class, so validation raises the charset error. -/
theorem transaction_validate_charset_witness :
    SepaTransaction.validate { mkTransaction "pain.001.001.03" with end2endId := "!" } =
      .error (.plain (charsetMsg1 "end2endId" "!")) ∧
    (∀ s member : String, s.data.all sepaIdSet1Char = true →
      assert_sepa_id_set1 s member = .ok ()) :=
  transaction_validate_charset _ (by decide) (by decide)

/-- Full characterization of the counterparty cross-field check against the
spec-side violation table: no violations gives ok; otherwise one structured
error carrying the counterparty name, the field names of ALL violations in
check order, and the message of the LAST violation. -/
theorem assert_debitor_characterization (a : DebitorArgs) :
    assert_debitor a =
      (if (debitorViolations a).isEmpty then .ok ()
       else .error (.invalidSupplier a.name ((debitorViolations a).map Prod.fst)
         (((debitorViolations a).getLast?.getD ("", "")).2))) := by
  unfold assert_debitor debitorViolations
  cases h1 : nameLongB a <;> cases h2 : streetLongB a <;> cases h3 : cityLongB a <;>
    cases h4 : countryLongB a <;> cases h5 : nameInvalidB a <;> cases h6 : ibanBicFailB a <;>
      simp

/-- C5 (corrected): for every counterparty field set with at least one
violation, the cross-field check raises exactly one structured error that
carries the counterparty name, the complete ordered list of ALL invalid
field names, and a message whose text is that of the LAST violation
encountered (each failing check overwrites the message), not the first as
claimed. -/
theorem assert_debitor_aggregated (a : DebitorArgs)
    (h : debitorViolations a ≠ []) :
    assert_debitor a = .error (.invalidSupplier a.name
      ((debitorViolations a).map Prod.fst)
      (((debitorViolations a).getLast?.getD ("", "")).2)) := by
  have hne : ¬((debitorViolations a).isEmpty = true) := by
    simp only [List.isEmpty_iff]
    exact h
  rw [assert_debitor_characterization, if_neg hne]

/-- Counterexample to C5 as stated: a counterparty whose name (71
characters) and street (71 characters) both violate the length limit.  The
first violation encountered is the name length check, yet the raised
error's message is the street check's text — the message of the last
violation, not the first. -/
theorem assert_debitor_first_message_cex :
    assert_debitor { name := "AAAAAAAAAAAAAAAAAAAAAAAAAAAAAAAAAAAAAAAAAAAAAAAAAAAAAAAAAAAAAAAAAAAAAAA",
                     street := some "BBBBBBBBBBBBBBBBBBBBBBBBBBBBBBBBBBBBBBBBBBBBBBBBBBBBBBBBBBBBBBBBBBBBBBB",
                     city := none, country := none,
                     iban := "DE87123456781234567890", bic := "",
                     pullFrom := "debtor" } =
      .error (.invalidSupplier
        "AAAAAAAAAAAAAAAAAAAAAAAAAAAAAAAAAAAAAAAAAAAAAAAAAAAAAAAAAAAAAAAAAAAAAAA"
        ["name", "street"] "debitor street is too long.") ∧
    ("debitor street is too long." : String) ≠ "debitor name is too long." :=
  ⟨by rfl, by decide⟩

/-- Witness for C5 (corrected): a counterparty with an empty name and an
invalid IBAN; its violation table is non-empty, and the error carries the
name, all field names, and the last violation's message. -/
theorem assert_debitor_aggregated_witness :
    assert_debitor { name := "", street := none, city := none, country := none,
                     iban := "XX", bic := "ABC", pullFrom := "creditor" } =
      .error (.invalidSupplier ""
        ((debitorViolations { name := "", street := none, city := none, country := none,
                              iban := "XX", bic := "ABC", pullFrom := "creditor" }).map Prod.fst)
        (((debitorViolations { name := "", street := none, city := none, country := none,
                               iban := "XX", bic := "ABC", pullFrom := "creditor" }).getLast?.getD ("", "")).2)) :=
  assert_debitor_aggregated
    { name := "", street := none, city := none, country := none,
      iban := "XX", bic := "ABC", pullFrom := "creditor" } (by decide)

/-! ## XML rendering engine theorems -/

/-- Rendering a credit-transfer transaction with validations disabled
always succeeds (the transfer branch dereferences no dates), and the root
node carries the transfer tag. -/
theorem transfer_toXML_ok (t : SepaTransaction)
    (h : t._type = TransactionTypes.Transfer) :
    ∃ x, SepaTransaction.toXML false t = .ok x ∧ x.name = TransactionTypes.Transfer := by
  cases t
  subst h
  exact ⟨_, rfl, rfl⟩

/-- Rendering a list of credit-transfer transactions with validations
disabled succeeds, and every rendered root carries the transfer tag. -/
theorem mapM_transfer_toXML (ps : List SepaTransaction)
    (h : ∀ t ∈ ps, t._type = TransactionTypes.Transfer) :
    ∃ xs, ps.mapM (SepaTransaction.toXML false) = .ok xs ∧
      ∀ x ∈ xs, x.name = TransactionTypes.Transfer := by
  induction ps with
  | nil => exact ⟨[], rfl, by simp⟩
  | cons t ts ih =>
      obtain ⟨x, hx, hname⟩ := transfer_toXML_ok t (h t (List.mem_cons_self t ts))
      obtain ⟨xs, hxs, hnames⟩ := ih (fun u hu => h u (List.mem_cons_of_mem _ hu))
      refine ⟨x :: xs, ?_, ?_⟩
      · rw [List.mapM_cons, hx, hxs]
        rfl
      · intro y hy
        rcases List.mem_cons.mp hy with rfl | hy2
        · exact hname
        · exact hnames y hy2


theorem XElem.name_mk (n : String) (a : List (String × String)) (t : String)
    (c : List XElem) : XElem.name (.mk n a t c) = n := rfl

theorem XElem.children_mk (n : String) (a : List (String × String)) (t : String)
    (c : List XElem) : XElem.children (.mk n a t c) = c := rfl

theorem XElem.text_mk (n : String) (a : List (String × String)) (t : String)
    (c : List XElem) : XElem.text (.mk n a t c) = t := rfl

/-- Group-header half of the version gating, fully characterized:
`BtchBookg` and `Grpg` appear exactly once iff the schema version is 2,
while `NbOfTxs` and `CtrlSum` appear exactly once for EVERY version. -/
theorem gh_gating (gh : SepaGroupHeader) (iso : String)
    (hgh : gh.created = .validDate iso) :
    ∃ x, gh.toXML = .ok x ∧
      countChild x "BtchBookg" = (if getPainXMLVersion gh._painFormat = some 2 then 1 else 0) ∧
      countChild x "Grpg" = (if getPainXMLVersion gh._painFormat = some 2 then 1 else 0) ∧
      countChild x "NbOfTxs" = 1 ∧ countChild x "CtrlSum" = 1 := by
  cases gh with
  | mk pf gid cr cnt inm cif cuc cs bb grp =>
      subst hgh
      by_cases hv : getPainXMLVersion pf = some 2
      · refine ⟨_, rfl, ?_, ?_, ?_, ?_⟩ <;>
          · simp only [if_pos hv]
            rfl
      · refine ⟨_, rfl, ?_, ?_, ?_, ?_⟩ <;>
          · simp only [if_neg hv]
            rfl



/-- Payment-info half of the version gating, fully characterized:
`BtchBookg`, `NbOfTxs` and `CtrlSum` appear exactly once iff the schema
version is 3, and `Grpg` NEVER appears at the payment-info level. -/
theorem pi_gating (p : SepaPaymentInfo) (iso1 iso2 : String)
    (hcd : p.collectionDate = .validDate iso1)
    (hed : p.requestedExecutionDate = .validDate iso2)
    (htx : ∀ t ∈ p._payments, t._type = TransactionTypes.Transfer) :
    ∃ x, p.toXML false = .ok x ∧
      countChild x "BtchBookg" = (if getPainXMLVersion p._painFormat = some 3 then 1 else 0) ∧
      countChild x "NbOfTxs" = (if getPainXMLVersion p._painFormat = some 3 then 1 else 0) ∧
      countChild x "CtrlSum" = (if getPainXMLVersion p._painFormat = some 3 then 1 else 0) ∧
      countChild x "Grpg" = 0 := by
  obtain ⟨txNodes, hxs, hnames⟩ := mapM_transfer_toXML p._payments htx
  have h0 : ∀ nm : String, nm ≠ TransactionTypes.Transfer →
      List.filter (fun c => c.name == nm) txNodes = [] := by
    intro nm hnm
    rw [List.filter_eq_nil_iff]
    intro x hx
    rw [hnames x hx]
    simp [TransactionTypes.Transfer]
    intro heq
    exact hnm heq.symm
  cases p with
  | mk pf m pays pid bb grp cs li st cd red cid cnm cst cct cco cib cbc cmi did dnm dst dct dco dib dbc dmi ip cp ovr =>
      subst hcd
      subst hed
      simp only at hxs
      by_cases hv : getPainXMLVersion pf = some 3
      · cases hbm : (m == PaymentInfoTypes.DirectDebit) with
        | true =>
            cases hbic : jsTruthyS cbc with
            | true =>
                simp only [SepaPaymentInfo.toXML, hbm, hv, hxs, hbic, jsToISOString]
                refine ⟨_, rfl, ?_, ?_, ?_, ?_⟩ <;>
                  · simp [countChild, XElem.children_mk, List.filter_append, hbic,
                      TransactionTypes.Transfer, leaf, xchain, XElem.name_mk] <;>
                      first
                      | rfl
                      | (intro a ha
                         rw [hnames a ha]
                         simp [TransactionTypes.Transfer])
            | false =>
                simp only [SepaPaymentInfo.toXML, hbm, hv, hxs, hbic, jsToISOString]
                refine ⟨_, rfl, ?_, ?_, ?_, ?_⟩ <;>
                  · simp [countChild, XElem.children_mk, List.filter_append, hbic,
                      TransactionTypes.Transfer, leaf, xchain, XElem.name_mk] <;>
                      first
                      | rfl
                      | (intro a ha
                         rw [hnames a ha]
                         simp [TransactionTypes.Transfer])
        | false =>
            cases hbic : jsTruthyS dbc with
            | true =>
                simp only [SepaPaymentInfo.toXML, hbm, hv, hxs, hbic, jsToISOString]
                refine ⟨_, rfl, ?_, ?_, ?_, ?_⟩ <;>
                  · simp [countChild, XElem.children_mk, List.filter_append, hbic,
                      TransactionTypes.Transfer, leaf, xchain, XElem.name_mk] <;>
                      first
                      | rfl
                      | (intro a ha
                         rw [hnames a ha]
                         simp [TransactionTypes.Transfer])
            | false =>
                simp only [SepaPaymentInfo.toXML, hbm, hv, hxs, hbic, jsToISOString]
                refine ⟨_, rfl, ?_, ?_, ?_, ?_⟩ <;>
                  · simp [countChild, XElem.children_mk, List.filter_append, hbic,
                      TransactionTypes.Transfer, leaf, xchain, XElem.name_mk] <;>
                      first
                      | rfl
                      | (intro a ha
                         rw [hnames a ha]
                         simp [TransactionTypes.Transfer])
      · cases hbm : (m == PaymentInfoTypes.DirectDebit) with
        | true =>
            cases hbic : jsTruthyS cbc with
            | true =>
                simp only [SepaPaymentInfo.toXML, hbm, hv, hxs, hbic, jsToISOString]
                refine ⟨_, rfl, ?_, ?_, ?_, ?_⟩ <;>
                  · simp [countChild, XElem.children_mk, List.filter_append, hbic,
                      TransactionTypes.Transfer, leaf, xchain, XElem.name_mk] <;>
                      first
                      | rfl
                      | (intro a ha
                         rw [hnames a ha]
                         simp [TransactionTypes.Transfer])
            | false =>
                simp only [SepaPaymentInfo.toXML, hbm, hv, hxs, hbic, jsToISOString]
                refine ⟨_, rfl, ?_, ?_, ?_, ?_⟩ <;>
                  · simp [countChild, XElem.children_mk, List.filter_append, hbic,
                      TransactionTypes.Transfer, leaf, xchain, XElem.name_mk] <;>
                      first
                      | rfl
                      | (intro a ha
                         rw [hnames a ha]
                         simp [TransactionTypes.Transfer])
        | false =>
            cases hbic : jsTruthyS dbc with
            | true =>
                simp only [SepaPaymentInfo.toXML, hbm, hv, hxs, hbic, jsToISOString]
                refine ⟨_, rfl, ?_, ?_, ?_, ?_⟩ <;>
                  · simp [countChild, XElem.children_mk, List.filter_append, hbic,
                      TransactionTypes.Transfer, leaf, xchain, XElem.name_mk] <;>
                      first
                      | rfl
                      | (intro a ha
                         rw [hnames a ha]
                         simp [TransactionTypes.Transfer])
            | false =>
                simp only [SepaPaymentInfo.toXML, hbm, hv, hxs, hbic, jsToISOString]
                refine ⟨_, rfl, ?_, ?_, ?_, ?_⟩ <;>
                  · simp [countChild, XElem.children_mk, List.filter_append, hbic,
                      TransactionTypes.Transfer, leaf, xchain, XElem.name_mk] <;>
                      first
                      | rfl
                      | (intro a ha
                         rw [hnames a ha]
                         simp [TransactionTypes.Transfer])

/-- C2 (corrected): version gating of `BtchBookg`/`Grpg`/`NbOfTxs`/`CtrlSum`.
At the group-header level `BtchBookg` and `Grpg` appear exactly once iff
the format resolves to schema version 2 — but `NbOfTxs` and `CtrlSum`
appear there for EVERY version, not only for version 2.  At the
payment-info level `BtchBookg`, `NbOfTxs` and `CtrlSum` appear exactly
once iff the version is 3, and `Grpg` never appears there at all.  Hence,
contrary to the claim, in version 3 `NbOfTxs`/`CtrlSum` sit at BOTH levels
and `Grpg` at NEITHER. -/
theorem version_gating (gh : SepaGroupHeader) (iso : String)
    (hgh : gh.created = .validDate iso)
    (p : SepaPaymentInfo) (iso1 iso2 : String)
    (hcd : p.collectionDate = .validDate iso1)
    (hed : p.requestedExecutionDate = .validDate iso2)
    (htx : ∀ t ∈ p._payments, t._type = TransactionTypes.Transfer) :
    (∃ x, gh.toXML = .ok x ∧
      countChild x "BtchBookg" = (if getPainXMLVersion gh._painFormat = some 2 then 1 else 0) ∧
      countChild x "Grpg" = (if getPainXMLVersion gh._painFormat = some 2 then 1 else 0) ∧
      countChild x "NbOfTxs" = 1 ∧ countChild x "CtrlSum" = 1) ∧
    (∃ y, p.toXML false = .ok y ∧
      countChild y "BtchBookg" = (if getPainXMLVersion p._painFormat = some 3 then 1 else 0) ∧
      countChild y "NbOfTxs" = (if getPainXMLVersion p._painFormat = some 3 then 1 else 0) ∧
      countChild y "CtrlSum" = (if getPainXMLVersion p._painFormat = some 3 then 1 else 0) ∧
      countChild y "Grpg" = 0) :=
  ⟨gh_gating gh iso hgh, pi_gating p iso1 iso2 hcd hed htx⟩

/-- Counterexample to C2 as stated: for the version-3 format
`pain.001.001.03`, `NbOfTxs` and `CtrlSum` still render at the
group-header level (the claim says they appear only at the payment-info
level), and `Grpg` renders at neither the group-header nor the
payment-info level (the claim says never neither). -/
theorem version_gating_cex :
    getPainXMLVersion "pain.001.001.03" = some 3 ∧
    (∃ x, SepaGroupHeader.toXML { mkGroupHeader "pain.001.001.03" with
        created := .validDate "2024-01-01T00:00:00.000Z" } = .ok x ∧
      countChild x "NbOfTxs" = 1 ∧ countChild x "CtrlSum" = 1 ∧
      countChild x "Grpg" = 0 ∧ countChild x "BtchBookg" = 0) ∧
    (∃ y, SepaPaymentInfo.toXML false { mkPaymentInfo "pain.001.001.03" with
        requestedExecutionDate := .validDate "2024-01-01T00:00:00.000Z" } = .ok y ∧
      countChild y "Grpg" = 0) := by
  refine ⟨by decide, ⟨_, rfl, by rfl, by rfl, by rfl, by rfl⟩, ⟨_, rfl, by rfl⟩⟩

/-- Witness for C2 (corrected), at the version-2 direct-debit format
`pain.008.001.01`. -/
theorem version_gating_witness :
    ((∃ x, SepaGroupHeader.toXML { mkGroupHeader "pain.008.001.01" with
        created := .validDate "2024-01-01T00:00:00.000Z" } = .ok x ∧
      countChild x "BtchBookg" =
        (if getPainXMLVersion "pain.008.001.01" = some 2 then 1 else 0) ∧
      countChild x "Grpg" =
        (if getPainXMLVersion "pain.008.001.01" = some 2 then 1 else 0) ∧
      countChild x "NbOfTxs" = 1 ∧ countChild x "CtrlSum" = 1) ∧
    (∃ y, SepaPaymentInfo.toXML false { mkPaymentInfo "pain.008.001.01" with
        collectionDate := .validDate "2024-01-01T00:00:00.000Z",
        requestedExecutionDate := .validDate "2024-01-02T00:00:00.000Z" } = .ok y ∧
      countChild y "BtchBookg" =
        (if getPainXMLVersion "pain.008.001.01" = some 3 then 1 else 0) ∧
      countChild y "NbOfTxs" =
        (if getPainXMLVersion "pain.008.001.01" = some 3 then 1 else 0) ∧
      countChild y "CtrlSum" =
        (if getPainXMLVersion "pain.008.001.01" = some 3 then 1 else 0) ∧
      countChild y "Grpg" = 0)) :=
  version_gating _ _ rfl _ "2024-01-01T00:00:00.000Z" "2024-01-02T00:00:00.000Z"
    rfl rfl (by intro t ht; cases ht)

/-- C9 (validation bypass): with the global validation switch disabled via
`enableValidations(false)`, (a) a credit-transfer transaction renders
without raising for EVERY amount — including 0.00 — and the rendered
`InstdAmt` text is exactly the amount's `toFixed(2)` string (`"0.00"` for
zero), not a corrected value; (b) a transfer payment-info block with zero
transactions and any debtor BIC/IBAN pair — including a country-mismatched
one — renders without raising, with no transaction children and with the
BIC and IBAN texts appearing verbatim in the output. -/
theorem validation_bypass :
    (∀ t : SepaTransaction, t._type = TransactionTypes.Transfer →
      ∃ x, SepaTransaction.toXML (enableValidations false) t = .ok x ∧
        x.textAt ["Amt", "InstdAmt"] = some (qToFixed2 t.amount) ∧
        qToFixed2 0 = "0.00") ∧
    (∀ (p : SepaPaymentInfo) (iso : String),
      p.method = PaymentInfoTypes.Transfer →
      p.requestedExecutionDate = .validDate iso →
      p._payments = [] →
      jsTruthyS p.debtorBIC = true →
      ∃ y, SepaPaymentInfo.toXML (enableValidations false) p = .ok y ∧
        countChild y TransactionTypes.DirectDebit = 0 ∧
        countChild y TransactionTypes.Transfer = 0 ∧
        y.textAt ["DbtrAgt", "FinInstnId", "BIC"] = some p.debtorBIC ∧
        y.textAt ["DbtrAcct", "Id", "IBAN"] = some p.debtorIBAN) := by
  constructor
  · intro t ht
    cases t
    subst ht
    exact ⟨_, rfl, rfl, rfl⟩
  · intro p iso hm hed hp hbic
    cases p with
    | mk pf m pays pid bb grp cs li st cd red cid cnm cst cct cco cib cbc cmi did dnm dst dct dco dib dbc dmi ip cp ovr =>
        subst hm
        subst hed
        subst hp
        simp only at hbic
        by_cases hv : getPainXMLVersion pf = some 3
        · simp only [SepaPaymentInfo.toXML, jsToISOString]
          rw [if_pos hv,
            show (if (PaymentInfoTypes.Transfer == PaymentInfoTypes.DirectDebit) = true
                  then cbc else dbc) = dbc from rfl,
            hbic]
          refine ⟨_, rfl, by rfl, by rfl, by rfl, by rfl⟩
        · simp only [SepaPaymentInfo.toXML, jsToISOString]
          rw [if_neg hv,
            show (if (PaymentInfoTypes.Transfer == PaymentInfoTypes.DirectDebit) = true
                  then cbc else dbc) = dbc from rfl,
            hbic]
          refine ⟨_, rfl, by rfl, by rfl, by rfl, by rfl⟩

/-- Witness for C9: a transaction with amount 0.00 and a payment-info
block whose BIC `ABCDFR21` (country FR) mismatches its IBAN
`DE87123456781234567890` (country DE); both render, the malformed values
verbatim. -/
theorem validation_bypass_witness :
    (∃ x, SepaTransaction.toXML (enableValidations false)
        { mkTransaction "pain.001.001.03" with amount := 0 } = .ok x ∧
      x.textAt ["Amt", "InstdAmt"] =
        some (qToFixed2
          ({ mkTransaction "pain.001.001.03" with amount := 0 } : SepaTransaction).amount) ∧
      qToFixed2 0 = "0.00") ∧
    (∃ y, SepaPaymentInfo.toXML (enableValidations false)
        { mkPaymentInfo "pain.001.001.03" with
                        requestedExecutionDate := .validDate "2024-01-01T00:00:00.000Z",
                        debtorBIC := "ABCDFR21",
                        debtorIBAN := "DE87123456781234567890" } = .ok y ∧
      countChild y TransactionTypes.DirectDebit = 0 ∧
      countChild y TransactionTypes.Transfer = 0 ∧
      y.textAt ["DbtrAgt", "FinInstnId", "BIC"] = some "ABCDFR21" ∧
      y.textAt ["DbtrAcct", "Id", "IBAN"] = some "DE87123456781234567890") :=
  ⟨validation_bypass.1 _ rfl,
   validation_bypass.2 _ "2024-01-01T00:00:00.000Z" rfl rfl rfl (by decide)⟩
